import Mathlib

/-! # Verification of the VCF validator (vcf_validation.py)

Shallow embedding of the core of `vcf_validation.py`: the nine field
validators, the header-tracking checks, and the line-by-line driver
`validate_vcf`.  Lines of the input file are modelled as `List Char`
(each line as Python file iteration yields it, i.e. usually ending in a
newline character).  Printing plus `sys.exit(1)` is modelled as a
`failure` outcome carrying a constructor that records exactly the data
interpolated into the printed message; an uncaught Python exception
(IndexError) is modelled as a `crash` outcome.
-/

namespace VcfVal

/-- Python `str.startswith`, on character lists. -/
def hasPre : List Char → List Char → Bool
  | [], _ => true
  | _ :: _, [] => false
  | p :: ps, x :: xs => p == x && hasPre ps xs

/-- Python `str.endswith`, on character lists. -/
def hasSuf (p l : List Char) : Bool :=
  hasPre p.reverse l.reverse

/-- The whitespace characters stripped by Python `str.strip()` (ASCII range). -/
def pyWs (c : Char) : Bool :=
  c == ' ' || c == '\t' || c == '\n' || c == '\r' || c == '\x0b' || c == '\x0c'

/-- Python `str.strip()`: drop leading and trailing whitespace. -/
def pyStrip (l : List Char) : List Char :=
  ((l.dropWhile pyWs).reverse.dropWhile pyWs).reverse

/-- Python `s.split(c)` for a one-character separator: always returns at
least one piece, and `"".split(c) == [""]`. -/
def splitOnChar (c : Char) : List Char → List (List Char)
  | [] => [[]]
  | x :: xs =>
    if x == c then [] :: splitOnChar c xs
    else
      match splitOnChar c xs with
      | [] => [[x]]
      | p :: ps => (x :: p) :: ps

/-- Python `s.split(c, 1)[1]`: the part after the first occurrence of `c`,
or `none` when `c` is absent (in which case the Python expression raises
`IndexError`). -/
def afterFirst (c : Char) : List Char → Option (List Char)
  | [] => none
  | x :: xs => if x == c then some xs else afterFirst c xs

/-- Python `needle in hay` for strings: contiguous-substring test. -/
def containsSub (needle : List Char) : List Char → Bool
  | [] => needle.isEmpty
  | x :: xs => hasPre needle (x :: xs) || containsSub needle xs

/-- The meta-line marker `"##"`. -/
def hashHash : List Char := ['#', '#']

/-- The fileformat meta-line marker `"##fileformat"`. -/
def ffTag : List Char := ['#', '#', 'f', 'i', 'l', 'e', 'f', 'o', 'r', 'm', 'a', 't']

/-- The contig meta-line marker `"##contig"`. -/
def contigTag : List Char := ['#', '#', 'c', 'o', 'n', 't', 'i', 'g']

/-- The column-header marker `"#CHROM"`. -/
def hdrTag : List Char := ['#', 'C', 'H', 'R', 'O', 'M']

/-- The attribute marker `"ID="` looked for inside contig declarations. -/
def idEqTag : List Char := ['I', 'D', '=']

/-- The forbidden contig-identifier stem `"chr"`. -/
def chrTag : List Char := ['c', 'h', 'r']

/-- The literal column name `"FORMAT"`. -/
def formatChars : List Char := ['F', 'O', 'R', 'M', 'A', 'T']

/-- The only accepted ALT value, `"<CNV>"`. -/
def cnvChars : List Char := ['<', 'C', 'N', 'V', '>']

/-- The required INFO substring `"SVTYPE=CNV"`. -/
def svtypeChars : List Char := ['S', 'V', 'T', 'Y', 'P', 'E', '=', 'C', 'N', 'V']

/-- The required FORMAT substring `"CN"`. -/
def cnChars : List Char := ['C', 'N']

/-- The ID substring `"LOSS"`. -/
def lossChars : List Char := ['L', 'O', 'S', 'S']

/-- The ID substring `"GAIN"`. -/
def gainChars : List Char := ['G', 'A', 'I', 'N']

/-- The literal `"."` accepted by QUAL and FILTER. -/
def dotChars : List Char := ['.']

/-- The plain-text extension `".vcf"`. -/
def vcfExt : List Char := ['.', 'v', 'c', 'f']

/-- The gzip extension `".gz"`. -/
def gzExt : List Char := ['.', 'g', 'z']

/-- Character class `[0-9A-Za-z_]` of the CHROM regex. -/
def chromChar (c : Char) : Bool :=
  c.isAlphanum || c == '_'

/-- Character class `[A-Za-z0-9:_.]` of the first token of the ID regex. -/
def idChar1 (c : Char) : Bool :=
  c.isAlphanum || c == ':' || c == '_' || c == '.'

/-- Character class `[A-Za-z0-9_.]` of later tokens of the ID regex. -/
def idChar2 (c : Char) : Bool :=
  c.isAlphanum || c == '_' || c == '.'

/-- Character class `[ACGTN]` of the REF regex. -/
def refChar (c : Char) : Bool :=
  c == 'A' || c == 'C' || c == 'G' || c == 'T' || c == 'N'

/-- Character class `[A-Za-z0-9_]` of the FILTER regex. -/
def filterChar (c : Char) : Bool :=
  c.isAlphanum || c == '_'

/-- The CHROM regex `^[0-9A-Za-z_]+$`. -/
def matchChrom (v : List Char) : Bool :=
  !v.isEmpty && v.all chromChar

/-- The POS regex `^[0-9]+$`. -/
def matchPos (v : List Char) : Bool :=
  !v.isEmpty && v.all Char.isDigit

/-- The ID regex `^([A-Za-z0-9:_.]+(;[A-Za-z0-9_.]+)*)?$`: empty, or
semicolon-separated nonempty tokens, the first over `idChar1`, the rest
over `idChar2` (the separator appears in neither class, so the regex
match is equivalent to this token decomposition). -/
def matchIdSyntax (v : List Char) : Bool :=
  v.isEmpty ||
    (match splitOnChar ';' v with
     | [] => false
     | t :: ts =>
       (!t.isEmpty && t.all idChar1) &&
         ts.all (fun u => !u.isEmpty && u.all idChar2))

/-- The REF regex `^[ACGTN]+$`. -/
def matchRef (v : List Char) : Bool :=
  !v.isEmpty && v.all refChar

/-- The QUAL regex `^[0-9]+(\.[0-9]+)?$`: digits, optionally one dot and
more digits (the dot is the separator, so splitting on it gives the two
digit groups). -/
def matchQualNum (v : List Char) : Bool :=
  match splitOnChar '.' v with
  | [a] => !a.isEmpty && a.all Char.isDigit
  | [a, b] => (!a.isEmpty && a.all Char.isDigit) && (!b.isEmpty && b.all Char.isDigit)
  | _ => false

/-- The first alternative of the FILTER regex,
`^([A-Za-z0-9_]+(;[A-Za-z0-9_]+)*)?$`. -/
def matchFilterTokens (v : List Char) : Bool :=
  v.isEmpty || (splitOnChar ';' v).all (fun u => !u.isEmpty && u.all filterChar)

/-- The full FILTER regex `^([A-Za-z0-9_]+(;[A-Za-z0-9_]+)*)?$|^\.$`. -/
def matchFilter (v : List Char) : Bool :=
  matchFilterTokens v || v == dotChars

/-- One constructor per distinct failure exit of `vcf_validation.py`.
Each constructor carries exactly the data that the corresponding
`print` interpolates into its message (the 1-based line number and the
raw offending line, which the message shows stripped). -/
inductive VcfError where
  | fileTypeNotRecognised
  | contigChr (lineNumber : Nat) (line : List Char)
  | formatColumnMissing
  | duplicateSamples
  | columnCount (lineNumber : Nat) (line : List Char)
  | invalidChrom (lineNumber : Nat) (line : List Char)
  | invalidPos (lineNumber : Nat) (line : List Char)
  | invalidId (lineNumber : Nat) (line : List Char)
  | idNoLossGain (lineNumber : Nat) (line : List Char)
  | invalidRef (lineNumber : Nat) (line : List Char)
  | invalidAlt (lineNumber : Nat) (line : List Char)
  | invalidQual (lineNumber : Nat) (line : List Char)
  | invalidFilter (lineNumber : Nat) (line : List Char)
  | missingSvtypeCnv (lineNumber : Nat) (line : List Char)
  | missingCnFormat (lineNumber : Nat) (line : List Char)
  | missingFileformat
  | missingChromHeader
  deriving DecidableEq, Repr

/-- The line number interpolated into the diagnostic message of each
failure exit, read off the `print` calls of the source: `none` when the
printed message contains no line number at all. -/
def reportedLine : VcfError → Option Nat
  | .contigChr n _ => some n
  | .columnCount n _ => some n
  | .invalidChrom n _ => some n
  | .invalidPos n _ => some n
  | .invalidId n _ => some n
  | .idNoLossGain n _ => some n
  | .invalidRef n _ => some n
  | .invalidAlt n _ => some n
  | .invalidQual n _ => some n
  | .invalidFilter n _ => some n
  | .missingSvtypeCnv n _ => some n
  | .missingCnFormat n _ => some n
  | .fileTypeNotRecognised => none
  | .formatColumnMissing => none
  | .duplicateSamples => none
  | .missingFileformat => none
  | .missingChromHeader => none

/-- How many diagnostic lines each failure exit prints before
`sys.exit(1)`: the ALT failure and the unrecognised-extension failure
print a second explanatory line, every other failure prints one line. -/
def printedLineCount : VcfError → Nat
  | .invalidAlt _ _ => 2
  | .fileTypeNotRecognised => 2
  | _ => 1

/-- Embedding of `validate_chrom` from the source. -/
def validate_chrom (value : List Char) (line_number : Nat) (line : List Char) :
    Option VcfError :=
  if matchChrom value then none else some (.invalidChrom line_number line)

/-- Embedding of `validate_pos` from the source. -/
def validate_pos (value : List Char) (line_number : Nat) (line : List Char) :
    Option VcfError :=
  if matchPos value then none else some (.invalidPos line_number line)

/-- Embedding of `validate_id` from the source: syntax check first, then the
LOSS/GAIN substring requirement. -/
def validate_id (value : List Char) (line_number : Nat) (line : List Char) :
    Option VcfError :=
  if !matchIdSyntax value then some (.invalidId line_number line)
  else if !containsSub lossChars value && !containsSub gainChars value then
    some (.idNoLossGain line_number line)
  else none

/-- Embedding of `validate_ref` from the source. -/
def validate_ref (value : List Char) (line_number : Nat) (line : List Char) :
    Option VcfError :=
  if matchRef value then none else some (.invalidRef line_number line)

/-- Embedding of `validate_alt` from the source: the value must be the literal
`"<CNV>"`; on failure a second explanatory line is printed (see
`printedLineCount`). -/
def validate_alt (value : List Char) (line_number : Nat) (line : List Char) :
    Option VcfError :=
  if value != cnvChars then some (.invalidAlt line_number line) else none

/-- Embedding of `validate_qual` from the source. -/
def validate_qual (value : List Char) (line_number : Nat) (line : List Char) :
    Option VcfError :=
  if !matchQualNum value && value != dotChars then
    some (.invalidQual line_number line)
  else none

/-- Embedding of `validate_filter` from the source. -/
def validate_filter (value : List Char) (line_number : Nat) (line : List Char) :
    Option VcfError :=
  if !matchFilter value then some (.invalidFilter line_number line) else none

/-- Embedding of `validate_info` from the source. -/
def validate_info (value : List Char) (line_number : Nat) (line : List Char) :
    Option VcfError :=
  if !containsSub svtypeChars value then some (.missingSvtypeCnv line_number line)
  else none

/-- Embedding of `validate_format` from the source. -/
def validate_format (value : List Char) (line_number : Nat) (line : List Char) :
    Option VcfError :=
  if !containsSub cnChars value then some (.missingCnFormat line_number line)
  else none

/-- First failure of two sequential validation steps (the second runs
only when the first passed, mirroring `sys.exit` control flow). -/
def firstErr (a b : Option VcfError) : Option VcfError :=
  match a with
  | some e => some e
  | none => b

/-- The nine field-validator calls of the driver, in source order,
stopping at the first failure. -/
def runFieldValidators (fields : List (List Char)) (n : Nat) (line : List Char) :
    Option VcfError :=
  firstErr (validate_chrom (fields.getD 0 []) n line)
    (firstErr (validate_pos (fields.getD 1 []) n line)
      (firstErr (validate_id (fields.getD 2 []) n line)
        (firstErr (validate_ref (fields.getD 3 []) n line)
          (firstErr (validate_alt (fields.getD 4 []) n line)
            (firstErr (validate_qual (fields.getD 5 []) n line)
              (firstErr (validate_filter (fields.getD 6 []) n line)
                (firstErr (validate_info (fields.getD 7 []) n line)
                  (validate_format (fields.getD 8 []) n line))))))))

/-- The contig attribute extraction
`[x for x in contig_info.split(',') if x.startswith('ID=')]`, applied to
the text after the first `<` of the line (`contig_info` is the part of
that text before the first `>`, or all of it when `>` is absent). -/
def idList (a : List Char) : List (List Char) :=
  (splitOnChar ',' ((splitOnChar '>' a).headD [])).filter (fun x => hasPre idEqTag x)

/-- The header-line check `len(header_fields) > 8 and header_fields[8] != "FORMAT"`. -/
def formatMissing (hf : List (List Char)) : Bool :=
  decide (8 < hf.length) && hf.getD 8 [] != formatChars

/-- The header-line check
`len(header_fields) > 9 and len(sample_names) != len(set(sample_names))`
(`set` size modelled as the length of the duplicate-free list). -/
def dupSamples (hf : List (List Char)) : Bool :=
  decide (9 < hf.length) &&
    (hf.drop 9).length != ((hf.drop 9).dedup).length

/-- Result of processing one physical line of the loop body. -/
inductive StepResult where
  | next (fileformatFound headerFound : Bool)
  | halt (e : VcfError)
  | crash (lineNumber : Nat)
  deriving DecidableEq, Repr

/-- The body of the `for line in file` loop of `validate_vcf`, for one
line: meta-lines update the fileformat flag and run the contig check,
the `#CHROM` line runs the two header-layout checks and sets the header
flag, every other line is a data record checked for column count and
then by the nine field validators.  A contig meta-line without `<`
makes `line.split('<',1)[1]` raise IndexError, modelled as `crash`. -/
def processLine (line : List Char) (line_number : Nat) (ff hd : Bool) : StepResult :=
  if hasPre hashHash line then
    if hasPre contigTag line then
      match afterFirst '<' line with
      | none => .crash line_number
      | some a =>
        match idList a with
        | [] => .next (ff || hasPre ffTag line) hd
        | t :: _ =>
          if hasPre chrTag ((splitOnChar '=' t).getD 1 []) then
            .halt (.contigChr line_number line)
          else .next (ff || hasPre ffTag line) hd
    else .next (ff || hasPre ffTag line) hd
  else if hasPre hdrTag line then
    if formatMissing (splitOnChar '\t' (pyStrip line)) then
      .halt .formatColumnMissing
    else if dupSamples (splitOnChar '\t' (pyStrip line)) then
      .halt .duplicateSamples
    else .next ff true
  else
    if (splitOnChar '\t' (pyStrip line)).length < 9 then
      .halt (.columnCount line_number line)
    else
      match runFieldValidators (splitOnChar '\t' (pyStrip line)) line_number line with
      | some e => .halt e
      | none => .next ff hd

/-- Outcome of one whole run: clean success, a printed failure followed
by `sys.exit(1)`, or an uncaught exception. -/
inductive Outcome where
  | success
  | failure (e : VcfError)
  | crash (lineNumber : Nat)
  deriving DecidableEq, Repr

/-- The whole loop of `validate_vcf` from line `n + 1` on, starting with
flags `ff` and `hd`, followed by the end-of-stream flag checks. -/
def validateFrom : List (List Char) → Nat → Bool → Bool → Outcome
  | [], _, ff, hd =>
    if !ff then .failure .missingFileformat
    else if !hd then .failure .missingChromHeader
    else .success
  | line :: rest, n, ff, hd =>
    match processLine line (n + 1) ff hd with
    | .next ff2 hd2 => validateFrom rest (n + 1) ff2 hd2
    | .halt e => .failure e
    | .crash m => .crash m

/-- Validation of a full line stream: line counter starts at 0, both
flags start false. -/
def validateLines (lines : List (List Char)) : Outcome :=
  validateFrom lines 0 false false

/-- Embedding of `validate_vcf` from the source: extension dispatch (the only use of
the path inside the core), then the streaming pass.  The `strict` and
`report` arguments only gate an extra success message and are dropped. -/
def validate_vcf (vcf_file : List Char) (lines : List (List Char)) : Outcome :=
  if hasSuf vcfExt vcf_file then validateLines lines
  else if hasSuf gzExt vcf_file then validateLines lines
  else .failure .fileTypeNotRecognised

/-- Pass condition of `validate_id`: syntax plus the LOSS/GAIN rule. -/
def idPass (v : List Char) : Bool :=
  matchIdSyntax v && (containsSub lossChars v || containsSub gainChars v)

/-- Pass condition of `validate_qual`. -/
def qualPass (v : List Char) : Bool :=
  matchQualNum v || v == dotChars

/-- Conjunction of the pass conditions of the nine field validators on
the first nine fields of a split data line. -/
def fieldsPass (fields : List (List Char)) : Bool :=
  matchChrom (fields.getD 0 []) &&
    (matchPos (fields.getD 1 []) &&
      (idPass (fields.getD 2 []) &&
        (matchRef (fields.getD 3 []) &&
          ((fields.getD 4 [] == cnvChars) &&
            (qualPass (fields.getD 5 []) &&
              (matchFilter (fields.getD 6 []) &&
                (containsSub svtypeChars (fields.getD 7 []) &&
                  containsSub cnChars (fields.getD 8 []))))))))

/-- A contig meta-line that neither crashes the contig parser nor
triggers the chr rejection: the line contains a `<`, and its first
`ID=` attribute (when one exists) does not begin with `chr`. -/
def contigOk (line : List Char) : Bool :=
  match afterFirst '<' line with
  | none => false
  | some a =>
    match idList a with
    | [] => true
    | t :: _ => !hasPre chrTag ((splitOnChar '=' t).getD 1 [])

/-- A column-header line that passes both header-layout checks. -/
def headerOk (line : List Char) : Bool :=
  !formatMissing (splitOnChar '\t' (pyStrip line)) &&
    !dupSamples (splitOnChar '\t' (pyStrip line))

/-- A data line with at least nine fields, all nine validators passing. -/
def dataLineOk (line : List Char) : Bool :=
  decide (9 ≤ (splitOnChar '\t' (pyStrip line)).length) &&
    fieldsPass (splitOnChar '\t' (pyStrip line))

/-- Per-line pass condition, following exactly the classification of the
driver loop: meta-lines only need the contig check (when applicable),
the `#CHROM` line needs the header-layout checks, every other line is a
data record. -/
def lineOk (line : List Char) : Bool :=
  if hasPre hashHash line then
    if hasPre contigTag line then contigOk line else true
  else if hasPre hdrTag line then headerOk line
  else dataLineOk line

/-- Scenario A of the specification: a minimal fully valid file. -/
def scenarioA : List (List Char) :=
  ["##fileformat=VCFv4.2\n".toList,
   "##contig=<ID=1>\n".toList,
   "#CHROM\tPOS\tID\tREF\tALT\tQUAL\tFILTER\tINFO\tFORMAT\tS1\n".toList,
   "1\t1\tGAIN1\tA\t<CNV>\t30\tPASS\tSVTYPE=CNV\tCN:GT\t0/1\n".toList]

/-- The header line of scenario A. -/
def hdrLineA : List Char :=
  "#CHROM\tPOS\tID\tREF\tALT\tQUAL\tFILTER\tINFO\tFORMAT\tS1\n".toList

/-- The data line of scenario A. -/
def dataLineA : List Char :=
  "1\t1\tGAIN1\tA\t<CNV>\t30\tPASS\tSVTYPE=CNV\tCN:GT\t0/1\n".toList

/-- The fileformat meta-line of scenario A. -/
def ffLineA : List Char := "##fileformat=VCFv4.2\n".toList

/-- A file meeting the hypotheses of claim C1 as stated (fileformat
declared, header present, the single data line passing all nine
validators) yet rejected, because of its chr-named contig. -/
def fileC1 : List (List Char) :=
  [ffLineA, "##contig=<ID=chr1>\n".toList, hdrLineA, dataLineA]

/-- The contig line of `fileC1`. -/
def contigChrLine : List Char := "##contig=<ID=chr1>\n".toList

/-- A file whose only fileformat meta-line comes after the column-header
line. -/
def fileC2 : List (List Char) := [hdrLineA, dataLineA, ffLineA]

/-- A contig meta-line with no `<` at all. -/
def contigNoLt : List Char := "##contig=1\n".toList

/-- A header line with ten fields whose ninth is not `FORMAT`. -/
def hdrBadFormat : List Char :=
  "#CHROM\tPOS\tID\tREF\tALT\tQUAL\tFILTER\tINFO\tX\tS1\n".toList

/-- A header line whose two sample columns are both named `S1`. -/
def hdrDup : List Char :=
  "#CHROM\tPOS\tID\tREF\tALT\tQUAL\tFILTER\tINFO\tFORMAT\tS1\tS1\n".toList

/-- Scenario A with its header line duplicated. -/
def fileC8 : List (List Char) :=
  [ffLineA, "##contig=<ID=1>\n".toList, hdrLineA, hdrLineA, dataLineA]

/-- A data line whose CHROM field fails the CHROM regex. -/
def badChromLine : List Char :=
  "@\t1\tGAIN1\tA\t<CNV>\t30\tPASS\tSVTYPE=CNV\tCN:GT\t0/1\n".toList

/-- A data line whose ALT field is `A` instead of `<CNV>`. -/
def badAltLine : List Char :=
  "1\t1\tGAIN1\tA\tA\t30\tPASS\tSVTYPE=CNV\tCN:GT\t0/1\n".toList

theorem firstErr_eq_none (a b : Option VcfError) :
    firstErr a b = none ↔ a = none ∧ b = none := by
  cases a <;> simp [firstErr]

theorem validate_chrom_eq_none (v : List Char) (n : Nat) (l : List Char) :
    validate_chrom v n l = none ↔ matchChrom v = true := by
  by_cases h : matchChrom v <;> simp [validate_chrom, h]

theorem validate_pos_eq_none (v : List Char) (n : Nat) (l : List Char) :
    validate_pos v n l = none ↔ matchPos v = true := by
  by_cases h : matchPos v <;> simp [validate_pos, h]

theorem validate_id_eq_none (v : List Char) (n : Nat) (l : List Char) :
    validate_id v n l = none ↔ idPass v = true := by
  by_cases h1 : matchIdSyntax v <;>
    by_cases h2 : containsSub lossChars v <;>
      by_cases h3 : containsSub gainChars v <;>
        simp [validate_id, idPass, h1, h2, h3]

theorem validate_ref_eq_none (v : List Char) (n : Nat) (l : List Char) :
    validate_ref v n l = none ↔ matchRef v = true := by
  by_cases h : matchRef v <;> simp [validate_ref, h]

theorem validate_alt_eq_none (v : List Char) (n : Nat) (l : List Char) :
    validate_alt v n l = none ↔ v = cnvChars := by
  by_cases h : v = cnvChars <;> simp [validate_alt, h]

theorem validate_qual_eq_none (v : List Char) (n : Nat) (l : List Char) :
    validate_qual v n l = none ↔ qualPass v = true := by
  by_cases h1 : matchQualNum v <;>
    by_cases h2 : v = dotChars <;>
      simp [validate_qual, qualPass, h1, h2]

theorem validate_filter_eq_none (v : List Char) (n : Nat) (l : List Char) :
    validate_filter v n l = none ↔ matchFilter v = true := by
  by_cases h : matchFilter v <;> simp [validate_filter, h]

theorem validate_info_eq_none (v : List Char) (n : Nat) (l : List Char) :
    validate_info v n l = none ↔ containsSub svtypeChars v = true := by
  by_cases h : containsSub svtypeChars v <;> simp [validate_info, h]

theorem validate_format_eq_none (v : List Char) (n : Nat) (l : List Char) :
    validate_format v n l = none ↔ containsSub cnChars v = true := by
  by_cases h : containsSub cnChars v <;> simp [validate_format, h]

theorem runFieldValidators_eq_none (fields : List (List Char)) (n : Nat) (line : List Char) :
    runFieldValidators fields n line = none ↔ fieldsPass fields = true := by
  simp [runFieldValidators, firstErr_eq_none, fieldsPass,
    validate_chrom_eq_none, validate_pos_eq_none, validate_id_eq_none,
    validate_ref_eq_none, validate_alt_eq_none, validate_qual_eq_none,
    validate_filter_eq_none, validate_info_eq_none, validate_format_eq_none]

theorem hasPre_trans :
    ∀ (p q l : List Char), hasPre p q = true → hasPre q l = true → hasPre p l = true := by
  intro p
  induction p with
  | nil => intro q l h1 h2; rfl
  | cons a ps ih =>
    intro q l h1 h2
    cases q with
    | nil => simp [hasPre] at h1
    | cons b qs =>
      cases l with
      | nil => simp [hasPre] at h2
      | cons c ls =>
        simp [hasPre] at h1 h2 ⊢
        exact ⟨h1.1.trans h2.1, ih qs ls h1.2 h2.2⟩

theorem hashHash_of_contig (l : List Char) (h : hasPre contigTag l = true) :
    hasPre hashHash l = true :=
  hasPre_trans hashHash contigTag l (by decide) h

theorem hashHash_of_ff (l : List Char) (h : hasPre ffTag l = true) :
    hasPre hashHash l = true :=
  hasPre_trans hashHash ffTag l (by decide) h

theorem not_hashHash_of_hdr (l : List Char) (h : hasPre hdrTag l = true) :
    hasPre hashHash l = false := by
  cases l with
  | nil => simp [hdrTag, hasPre] at h
  | cons a t =>
    cases t with
    | nil => simp [hdrTag, hasPre] at h
    | cons b t2 =>
      simp [hdrTag, hasPre] at h
      simp [hashHash, hasPre]
      intro _
      rw [← h.2.1]
      decide

theorem not_hdr_of_hashHash (l : List Char) (h : hasPre hashHash l = true) :
    hasPre hdrTag l = false := by
  cases hh : hasPre hdrTag l with
  | false => rfl
  | true => rw [not_hashHash_of_hdr l hh] at h; exact absurd h (by simp)

theorem not_ff_of_not_hashHash (l : List Char) (h : hasPre hashHash l = false) :
    hasPre ffTag l = false := by
  cases hf : hasPre ffTag l with
  | false => rfl
  | true => rw [hashHash_of_ff l hf] at h; exact absurd h (by simp)

theorem not_hashHash_of_ws (l : List Char) (h : l.all pyWs = true) :
    hasPre hashHash l = false := by
  cases l with
  | nil => rfl
  | cons a t =>
    simp [List.all_cons] at h
    simp [hashHash, hasPre]
    intro hq
    exfalso
    rw [← hq] at h
    exact absurd h.1 (by decide)

theorem not_hdr_of_ws (l : List Char) (h : l.all pyWs = true) :
    hasPre hdrTag l = false := by
  cases l with
  | nil => rfl
  | cons a t =>
    simp [List.all_cons] at h
    simp [hdrTag, hasPre]
    intro hq
    exfalso
    rw [← hq] at h
    exact absurd h.1 (by decide)

theorem processLine_meta_nocontig (line : List Char) (n : Nat) (ff hd : Bool)
    (h1 : hasPre hashHash line = true) (h2 : hasPre contigTag line = false) :
    processLine line n ff hd = .next (ff || hasPre ffTag line) hd := by
  simp [processLine, h1, h2]

theorem processLine_contig_none (line : List Char) (n : Nat) (ff hd : Bool)
    (h2 : hasPre contigTag line = true) (ha : afterFirst '<' line = none) :
    processLine line n ff hd = .crash n := by
  simp [processLine, hashHash_of_contig line h2, h2, ha]

theorem processLine_contig_noid (line a : List Char) (n : Nat) (ff hd : Bool)
    (h2 : hasPre contigTag line = true) (ha : afterFirst '<' line = some a)
    (hi : idList a = []) :
    processLine line n ff hd = .next (ff || hasPre ffTag line) hd := by
  simp [processLine, hashHash_of_contig line h2, h2, ha, hi]

theorem processLine_contig_id (line a t : List Char) (ts : List (List Char)) (n : Nat)
    (ff hd : Bool)
    (h2 : hasPre contigTag line = true) (ha : afterFirst '<' line = some a)
    (hi : idList a = t :: ts) :
    processLine line n ff hd =
      (if hasPre chrTag ((splitOnChar '=' t).getD 1 []) then
         .halt (.contigChr n line)
       else .next (ff || hasPre ffTag line) hd) := by
  simp [processLine, hashHash_of_contig line h2, h2, ha, hi]

theorem processLine_hdr (line : List Char) (n : Nat) (ff hd : Bool)
    (h2 : hasPre hdrTag line = true) :
    processLine line n ff hd =
      (if formatMissing (splitOnChar '\t' (pyStrip line)) then
         .halt .formatColumnMissing
       else if dupSamples (splitOnChar '\t' (pyStrip line)) then
         .halt .duplicateSamples
       else .next ff true) := by
  simp [processLine, not_hashHash_of_hdr line h2, h2]

theorem processLine_data_short (line : List Char) (n : Nat) (ff hd : Bool)
    (h1 : hasPre hashHash line = false) (h2 : hasPre hdrTag line = false)
    (hlen : (splitOnChar '\t' (pyStrip line)).length < 9) :
    processLine line n ff hd = .halt (.columnCount n line) := by
  simp [processLine, h1, h2, hlen]

theorem processLine_data_err (line : List Char) (n : Nat) (ff hd : Bool) (e : VcfError)
    (h1 : hasPre hashHash line = false) (h2 : hasPre hdrTag line = false)
    (hlen : ¬(splitOnChar '\t' (pyStrip line)).length < 9)
    (hr : runFieldValidators (splitOnChar '\t' (pyStrip line)) n line = some e) :
    processLine line n ff hd = .halt e := by
  simp [processLine, h1, h2, hlen, hr]

theorem processLine_data_pass (line : List Char) (n : Nat) (ff hd : Bool)
    (h1 : hasPre hashHash line = false) (h2 : hasPre hdrTag line = false)
    (hlen : ¬(splitOnChar '\t' (pyStrip line)).length < 9)
    (hr : runFieldValidators (splitOnChar '\t' (pyStrip line)) n line = none) :
    processLine line n ff hd = .next ff hd := by
  simp [processLine, h1, h2, hlen, hr]

theorem validateFrom_cons (line : List Char) (rest : List (List Char)) (n : Nat) (ff hd : Bool) :
    validateFrom (line :: rest) n ff hd =
      (match processLine line (n + 1) ff hd with
       | .next ff2 hd2 => validateFrom rest (n + 1) ff2 hd2
       | .halt e => .failure e
       | .crash m => .crash m) := rfl

theorem processLine_next_flags (line : List Char) (n : Nat) (ff hd a b : Bool)
    (h : processLine line n ff hd = .next a b) :
    a = (ff || hasPre ffTag line) ∧ b = (hd || hasPre hdrTag line) := by
  by_cases h1 : hasPre hashHash line = true
  · have hdr0 : hasPre hdrTag line = false := not_hdr_of_hashHash line h1
    rw [hdr0, Bool.or_false]
    by_cases h2 : hasPre contigTag line = true
    · rcases ha : afterFirst '<' line with _ | a2
      · rw [processLine_contig_none line n ff hd h2 ha] at h
        exact absurd h (by simp)
      · rcases hi : idList a2 with _ | ⟨t, ts⟩
        · rw [processLine_contig_noid line a2 n ff hd h2 ha hi] at h
          injection h with e1 e2
          exact ⟨e1.symm, e2.symm⟩
        · rw [processLine_contig_id line a2 t ts n ff hd h2 ha hi] at h
          rcases hc : hasPre chrTag ((splitOnChar '=' t).getD 1 []) with _ | _
          · rw [hc] at h
            simp only [Bool.false_eq_true, if_false] at h
            injection h with e1 e2
            exact ⟨e1.symm, e2.symm⟩
          · rw [hc] at h
            simp only [if_true] at h
            exact absurd h (by simp)
    · have h2f : hasPre contigTag line = false := by simpa using h2
      rw [processLine_meta_nocontig line n ff hd h1 h2f] at h
      injection h with e1 e2
      exact ⟨e1.symm, e2.symm⟩
  · have h1f : hasPre hashHash line = false := by simpa using h1
    have hff0 : hasPre ffTag line = false := not_ff_of_not_hashHash line h1f
    rw [hff0, Bool.or_false]
    by_cases h2 : hasPre hdrTag line = true
    · rw [h2, Bool.or_true]
      rw [processLine_hdr line n ff hd h2] at h
      rcases hm : formatMissing (splitOnChar '\t' (pyStrip line)) with _ | _
      · rw [hm] at h
        simp only [Bool.false_eq_true, if_false] at h
        rcases hdup : dupSamples (splitOnChar '\t' (pyStrip line)) with _ | _
        · rw [hdup] at h
          simp only [Bool.false_eq_true, if_false] at h
          injection h with e1 e2
          exact ⟨e1.symm, e2.symm⟩
        · rw [hdup] at h
          simp only [if_true] at h
          exact absurd h (by simp)
      · rw [hm] at h
        simp only [if_true] at h
        exact absurd h (by simp)
    · have h2f : hasPre hdrTag line = false := by simpa using h2
      rw [h2f, Bool.or_false]
      by_cases hlen : (splitOnChar '\t' (pyStrip line)).length < 9
      · rw [processLine_data_short line n ff hd h1f h2f hlen] at h
        exact absurd h (by simp)
      · rcases hr : runFieldValidators (splitOnChar '\t' (pyStrip line)) n line with _ | e
        · rw [processLine_data_pass line n ff hd h1f h2f hlen hr] at h
          injection h with e1 e2
          exact ⟨e1.symm, e2.symm⟩
        · rw [processLine_data_err line n ff hd e h1f h2f hlen hr] at h
          exact absurd h (by simp)

theorem validateFrom_ne_success_of_no_ff :
    ∀ (lines : List (List Char)) (n : Nat) (hd : Bool),
      lines.all (fun l => !hasPre ffTag l) = true →
      validateFrom lines n false hd ≠ Outcome.success := by
  intro lines
  induction lines with
  | nil => intro n hd _; simp [validateFrom]
  | cons line rest ih =>
    intro n hd hall
    simp only [List.all_cons, Bool.and_eq_true] at hall
    rw [validateFrom_cons]
    rcases hp : processLine line (n + 1) false hd with ⟨a, b⟩ | e | m
    · have hfl := (processLine_next_flags line (n + 1) false hd a b hp).1
      have hf : hasPre ffTag line = false := by simpa using hall.1
      rw [hf, Bool.or_false] at hfl
      rw [hfl]
      exact ih (n + 1) b hall.2
    · simp
    · simp

theorem validateFrom_ne_success_of_no_hdr :
    ∀ (lines : List (List Char)) (n : Nat) (ff : Bool),
      lines.all (fun l => !hasPre hdrTag l) = true →
      validateFrom lines n ff false ≠ Outcome.success := by
  intro lines
  induction lines with
  | nil => intro n ff _; cases ff <;> simp [validateFrom]
  | cons line rest ih =>
    intro n ff hall
    simp only [List.all_cons, Bool.and_eq_true] at hall
    rw [validateFrom_cons]
    rcases hp : processLine line (n + 1) ff false with ⟨a, b⟩ | e | m
    · have hfl := (processLine_next_flags line (n + 1) ff false a b hp).2
      have hf : hasPre hdrTag line = false := by simpa using hall.1
      rw [hf, Bool.or_false] at hfl
      rw [hfl]
      exact ih (n + 1) a hall.2
    · simp
    · simp

theorem validateFrom_success_of_ok :
    ∀ (lines : List (List Char)) (n : Nat) (ff hd : Bool),
      lines.all lineOk = true →
      (ff || lines.any (fun l => hasPre ffTag l)) = true →
      (hd || lines.any (fun l => hasPre hdrTag l)) = true →
      validateFrom lines n ff hd = Outcome.success := by
  intro lines
  induction lines with
  | nil =>
    intro n ff hd _ hff hhd
    simp only [List.any_nil, Bool.or_false] at hff hhd
    simp [validateFrom, hff, hhd]
  | cons line rest ih =>
    intro n ff hd hall hff hhd
    simp only [List.all_cons, Bool.and_eq_true] at hall
    obtain ⟨hok, hrest⟩ := hall
    simp only [List.any_cons] at hff hhd
    rw [validateFrom_cons]
    by_cases h1 : hasPre hashHash line = true
    · have hdr0 : hasPre hdrTag line = false := not_hdr_of_hashHash line h1
      have hstep : processLine line (n + 1) ff hd = .next (ff || hasPre ffTag line) hd := by
        by_cases h2 : hasPre contigTag line = true
        · have hco : contigOk line = true := by simpa [lineOk, h1, h2] using hok
          rcases ha : afterFirst '<' line with _ | a2
          · simp only [contigOk, ha] at hco
            exact absurd hco Bool.false_ne_true
          · rcases hi : idList a2 with _ | ⟨t, ts⟩
            · exact processLine_contig_noid line a2 (n + 1) ff hd h2 ha hi
            · simp only [contigOk, ha, hi, Bool.not_eq_true'] at hco
              rw [processLine_contig_id line a2 t ts (n + 1) ff hd h2 ha hi, hco]
              simp
        · have h2f : hasPre contigTag line = false := by simpa using h2
          exact processLine_meta_nocontig line (n + 1) ff hd h1 h2f
      rw [hstep]
      apply ih (n + 1) (ff || hasPre ffTag line) hd hrest
      · rw [Bool.or_assoc]
        exact hff
      · rw [hdr0] at hhd
        simpa using hhd
    · have h1f : hasPre hashHash line = false := by simpa using h1
      have hff0 : hasPre ffTag line = false := not_ff_of_not_hashHash line h1f
      rw [hff0] at hff
      simp only [Bool.false_or] at hff
      by_cases h2 : hasPre hdrTag line = true
      · have hho : headerOk line = true := by simpa [lineOk, h1f, h2] using hok
        simp only [headerOk, Bool.and_eq_true, Bool.not_eq_true'] at hho
        have hstep : processLine line (n + 1) ff hd = .next ff true := by
          rw [processLine_hdr line (n + 1) ff hd h2, hho.1, hho.2]
          simp
        rw [hstep]
        exact ih (n + 1) ff true hrest hff (by simp)
      · have h2f : hasPre hdrTag line = false := by simpa using h2
        have hdo : dataLineOk line = true := by simpa [lineOk, h1f, h2f] using hok
        simp only [dataLineOk, Bool.and_eq_true, decide_eq_true_eq] at hdo
        have hrun : runFieldValidators (splitOnChar '\t' (pyStrip line)) (n + 1) line = none :=
          (runFieldValidators_eq_none (splitOnChar '\t' (pyStrip line)) (n + 1) line).mpr hdo.2
        have hstep : processLine line (n + 1) ff hd = .next ff hd :=
          processLine_data_pass line (n + 1) ff hd h1f h2f (by omega) hrun
        rw [hstep]
        rw [h2f] at hhd
        simp only [Bool.false_or] at hhd
        exact ih (n + 1) ff hd hrest hff hhd

theorem pyStrip_eq_nil_of_ws (l : List Char) (h : l.all pyWs = true) :
    pyStrip l = [] := by
  have hd : l.dropWhile pyWs = [] := by
    induction l with
    | nil => rfl
    | cons a t ih =>
      simp only [List.all_cons, Bool.and_eq_true] at h
      simp [List.dropWhile_cons, h.1, ih h.2]
  simp [pyStrip, hd]

/-- Claim C1, counterexample: `fileC1` declares a fileformat meta-line,
contains the column-header line, and its every data line (every line
that is neither a meta-line nor the header line) passes all nine field
validators, yet `validate_vcf` fails (on the chr-named contig of its
second line) instead of succeeding. -/
theorem claimC1_counterexample :
    fileC1.any (fun l => hasPre ffTag l) = true ∧
    fileC1.any (fun l => hasPre hdrTag l) = true ∧
    fileC1.all (fun l => hasPre hashHash l || hasPre hdrTag l || dataLineOk l) = true ∧
    validate_vcf ("input.vcf".toList) fileC1 =
      Outcome.failure (.contigChr 2 contigChrLine) :=
  ⟨by decide, by decide, by decide, by decide⟩

/-- Claim C1, amended: for every `.vcf` input whose lines all pass their
per-line checks (contig meta-lines well formed with no chr-named first
`ID=`, header lines passing the FORMAT-column and duplicate-sample
checks, data lines with at least nine fields passing all nine field
validators), with a fileformat meta-line and a column-header line
present, `validate_vcf` succeeds. -/
theorem claimC1_theorem (fname : List Char) (lines : List (List Char))
    (hext : hasSuf vcfExt fname = true)
    (hok : lines.all lineOk = true)
    (hff : lines.any (fun l => hasPre ffTag l) = true)
    (hhd : lines.any (fun l => hasPre hdrTag l) = true) :
    validate_vcf fname lines = Outcome.success := by
  simp only [validate_vcf, hext, if_true]
  exact validateFrom_success_of_ok lines 0 false false hok (by simpa using hff)
    (by simpa using hhd)

/-- Claim C1, witness: the concrete scenario-A file is accepted. -/
theorem claimC1_witness : validate_vcf ("input.vcf".toList) scenarioA = Outcome.success :=
  claimC1_theorem ("input.vcf".toList) scenarioA (by decide) (by decide) (by decide)
    (by decide)

/-- Claim C2, counterexample: a file whose only fileformat meta-line
appears after the column-header line is accepted, not rejected — the
fileformat flag is set by any `##fileformat` line wherever it occurs
and is only inspected at end of stream. -/
theorem claimC2_counterexample :
    hasPre hdrTag (fileC2.getD 0 []) = true ∧
    (fileC2.take 2).all (fun l => !hasPre ffTag l) = true ∧
    hasPre ffTag (fileC2.getD 2 []) = true ∧
    validateLines fileC2 = Outcome.success :=
  ⟨by decide, by decide, by decide, by decide⟩

/-- Claim C2, amended: validation requires at least one fileformat
meta-line somewhere in the file — a file with none is never accepted —
but the meta-line need not occur before the column-header line. -/
theorem claimC2_theorem (lines : List (List Char))
    (h : lines.all (fun l => !hasPre ffTag l) = true) :
    validateLines lines ≠ Outcome.success :=
  validateFrom_ne_success_of_no_ff lines 0 false h

/-- Claim C2, witness: a file with a header line and a valid data line
but no fileformat meta-line is rejected. -/
theorem claimC2_witness : validateLines [hdrLineA, dataLineA] ≠ Outcome.success :=
  claimC2_theorem [hdrLineA, dataLineA] (by decide)

/-- Claim C3, counterexample: a contig meta-line with no `<` at all does
not make the validator silently continue; `line.split('<',1)[1]` raises
an uncaught IndexError, modelled as `crash`. -/
theorem claimC3_counterexample :
    hasPre contigTag contigNoLt = true ∧
    afterFirst '<' contigNoLt = none ∧
    validateLines [contigNoLt] = Outcome.crash 1 :=
  ⟨by decide, by decide, by decide⟩

/-- Claim C3, amended: for a contig meta-line containing `<` whose
attribute list has no `ID=` attribute, the chr check is silently
skipped and processing continues with the next line; for a contig
meta-line with no `<` at all, the run ends in an uncaught IndexError
instead. -/
theorem claimC3_theorem (line a : List Char) (rest : List (List Char)) (n : Nat)
    (ff hd : Bool) (hc : hasPre contigTag line = true) :
    (afterFirst '<' line = none →
       validateFrom (line :: rest) n ff hd = Outcome.crash (n + 1)) ∧
    (afterFirst '<' line = some a → idList a = [] →
       validateFrom (line :: rest) n ff hd =
         validateFrom rest (n + 1) (ff || hasPre ffTag line) hd) := by
  constructor
  · intro ha
    rw [validateFrom_cons, processLine_contig_none line (n + 1) ff hd hc ha]
  · intro ha hi
    rw [validateFrom_cons, processLine_contig_noid line a (n + 1) ff hd hc ha hi]

/-- Claim C3, witness: the no-`<` contig line crashes the run, and the
`ID=`-free contig line is skipped silently. -/
theorem claimC3_witness :
    validateFrom [contigNoLt] 0 false false = Outcome.crash 1 ∧
    validateFrom ["##contig=<foo>\n".toList] 0 false false =
      validateFrom [] 1 (false || hasPre ffTag ("##contig=<foo>\n".toList)) false :=
  ⟨(claimC3_theorem contigNoLt [] [] 0 false false (by decide)).1 (by decide),
   (claimC3_theorem ("##contig=<foo>\n".toList) ("foo>\n".toList) [] 0 false false
      (by decide)).2 (by decide) (by decide)⟩

/-- Claim C4, counterexample: the duplicate-sample check fails on line 2
of this file and halts the run, but its diagnostic is the fixed message
with no line number in it, contradicting the claim that every Header
Tracker failure reports the current line number. -/
theorem claimC4_counterexample :
    validateLines [ffLineA, hdrDup] = Outcome.failure VcfError.duplicateSamples ∧
    reportedLine VcfError.duplicateSamples = none :=
  ⟨by decide, by decide⟩

/-- Claim C4, amended: each of the three Header Tracker checks halts the
whole run when it fails; the contig chr-check reports the current
1-based line number, while the FORMAT-column check and the
duplicate-sample check emit fixed diagnostics containing no line
number. -/
theorem claimC4_theorem (line a t : List Char) (ts : List (List Char))
    (rest : List (List Char)) (n : Nat) (ff hd : Bool) :
    (hasPre contigTag line = true → afterFirst '<' line = some a →
       idList a = t :: ts →
       hasPre chrTag ((splitOnChar '=' t).getD 1 []) = true →
       validateFrom (line :: rest) n ff hd =
         Outcome.failure (.contigChr (n + 1) line) ∧
       reportedLine (.contigChr (n + 1) line) = some (n + 1)) ∧
    (hasPre hdrTag line = true →
       formatMissing (splitOnChar '\t' (pyStrip line)) = true →
       validateFrom (line :: rest) n ff hd = Outcome.failure .formatColumnMissing ∧
       reportedLine VcfError.formatColumnMissing = none) ∧
    (hasPre hdrTag line = true →
       formatMissing (splitOnChar '\t' (pyStrip line)) = false →
       dupSamples (splitOnChar '\t' (pyStrip line)) = true →
       validateFrom (line :: rest) n ff hd = Outcome.failure .duplicateSamples ∧
       reportedLine VcfError.duplicateSamples = none) := by
  refine ⟨?_, ?_, ?_⟩
  · intro hc ha hi hchr
    refine ⟨?_, rfl⟩
    rw [validateFrom_cons, processLine_contig_id line a t ts (n + 1) ff hd hc ha hi,
      if_pos hchr]
  · intro hh hm
    refine ⟨?_, rfl⟩
    rw [validateFrom_cons, processLine_hdr line (n + 1) ff hd hh, if_pos hm]
  · intro hh hm hdup
    refine ⟨?_, rfl⟩
    rw [validateFrom_cons, processLine_hdr line (n + 1) ff hd hh,
      if_neg (by rw [hm]; exact Bool.false_ne_true), if_pos hdup]

/-- Claim C4, witness: the three checks at concrete inputs — chr contig
(line number reported), bad ninth header column and duplicate samples
(fixed messages, no line number). -/
theorem claimC4_witness :
    (validateFrom [contigChrLine] 0 false false =
       Outcome.failure (.contigChr 1 contigChrLine) ∧
     reportedLine (.contigChr 1 contigChrLine) = some 1) ∧
    (validateFrom [hdrBadFormat] 0 false false =
       Outcome.failure .formatColumnMissing ∧
     reportedLine VcfError.formatColumnMissing = none) ∧
    (validateFrom [hdrDup] 0 false false = Outcome.failure .duplicateSamples ∧
     reportedLine VcfError.duplicateSamples = none) :=
  ⟨(claimC4_theorem contigChrLine ("ID=chr1>\n".toList) ("ID=chr1".toList) [] [] 0
      false false).1 (by decide) (by decide) (by decide) (by decide),
   (claimC4_theorem hdrBadFormat [] [] [] [] 0 false false).2.1 (by decide) (by decide),
   (claimC4_theorem hdrDup [] [] [] [] 0 false false).2.2 (by decide) (by decide)
     (by decide)⟩

/-- Claim C5: a line that is neither a meta-line nor the header line and
whose stripped, tab-split form has fewer than nine fields makes the run
fail immediately with the incorrect-number-of-columns error carrying the
1-based line number; the failure is the column-count one for every such
line, whatever its field contents and whatever follows it, so no field
validator ever decides the outcome of such a line. -/
theorem claimC5_theorem (line : List Char) (rest : List (List Char)) (n : Nat)
    (ff hd : Bool)
    (h1 : hasPre hashHash line = false) (h2 : hasPre hdrTag line = false)
    (h3 : (splitOnChar '\t' (pyStrip line)).length < 9) :
    validateFrom (line :: rest) n ff hd =
      Outcome.failure (.columnCount (n + 1) line) ∧
    reportedLine (.columnCount (n + 1) line) = some (n + 1) := by
  refine ⟨?_, rfl⟩
  rw [validateFrom_cons, processLine_data_short line (n + 1) ff hd h1 h2 h3]

/-- Claim C5, witness: a two-field data line on line 3 fails with the
column-count error citing line 3. -/
theorem claimC5_witness :
    validateFrom ["1\t2\n".toList, dataLineA] 2 true true =
      Outcome.failure (.columnCount 3 ("1\t2\n".toList)) ∧
    reportedLine (.columnCount 3 ("1\t2\n".toList)) = some 3 :=
  claimC5_theorem ("1\t2\n".toList) [dataLineA] 2 true true (by decide) (by decide)
    (by decide)

/-- Claim C6: the ALT validator accepts exactly the literal `<CNV>`; on
any other value it fails with the ALT-specific error, whose diagnostic
carries the line number and prints a second explanatory line. -/
theorem claimC6_theorem (v : List Char) (n : Nat) (l : List Char) :
    (validate_alt v n l = none ↔ v = cnvChars) ∧
    (v ≠ cnvChars →
       validate_alt v n l = some (.invalidAlt n l) ∧
       printedLineCount (.invalidAlt n l) = 2 ∧
       reportedLine (.invalidAlt n l) = some n) := by
  refine ⟨validate_alt_eq_none v n l, ?_⟩
  intro hne
  refine ⟨?_, rfl, rfl⟩
  simp [validate_alt, hne]

/-- Claim C6, witness: ALT value `A` on line 4 is rejected with the
two-line ALT diagnostic, and `<CNV>` itself is accepted. -/
theorem claimC6_witness :
    (validate_alt (['A']) 4 badAltLine = none ↔ (['A']) = cnvChars) ∧
    (validate_alt (['A']) 4 badAltLine = some (.invalidAlt 4 badAltLine) ∧
     printedLineCount (.invalidAlt 4 badAltLine) = 2 ∧
     reportedLine (.invalidAlt 4 badAltLine) = some 4) :=
  ⟨(claimC6_theorem (['A']) 4 badAltLine).1,
   (claimC6_theorem (['A']) 4 badAltLine).2 (by decide)⟩

/-- Claim C7: a contig meta-line whose first `ID=` attribute value
begins with `chr` makes the run fail immediately — whatever the current
flags and whatever lines follow — with the contig error citing the
1-based line number of the contig line. -/
theorem claimC7_theorem (line a t : List Char) (ts : List (List Char))
    (rest : List (List Char)) (n : Nat) (ff hd : Bool)
    (hc : hasPre contigTag line = true)
    (ha : afterFirst '<' line = some a)
    (hi : idList a = t :: ts)
    (hchr : hasPre chrTag ((splitOnChar '=' t).getD 1 []) = true) :
    validateFrom (line :: rest) n ff hd =
      Outcome.failure (.contigChr (n + 1) line) ∧
    reportedLine (.contigChr (n + 1) line) = some (n + 1) := by
  refine ⟨?_, rfl⟩
  rw [validateFrom_cons, processLine_contig_id line a t ts (n + 1) ff hd hc ha hi,
    if_pos hchr]

/-- Claim C7, witness: scenario B — the `chr1` contig on line 2 fails
citing line 2, with the rest of the file never reached. -/
theorem claimC7_witness :
    validateFrom [contigChrLine, hdrLineA, dataLineA] 1 true false =
      Outcome.failure (.contigChr 2 contigChrLine) ∧
    reportedLine (.contigChr 2 contigChrLine) = some 2 :=
  claimC7_theorem contigChrLine ("ID=chr1>\n".toList) ("ID=chr1".toList) []
    [hdrLineA, dataLineA] 1 true false (by decide) (by decide) (by decide) (by decide)

/-- Claim C8, counterexample: a file containing the column-header line
twice is accepted — the second header line is simply re-checked, never
rejected for being a duplicate. -/
theorem claimC8_counterexample :
    fileC8.countP (fun l => hasPre hdrTag l) = 2 ∧
    validateLines fileC8 = Outcome.success :=
  ⟨by decide, by decide⟩

/-- Claim C8, amended: every accepted file contains at least one
column-header line, but a file with more than one well-formed header
line is not rejected. -/
theorem claimC8_theorem (lines : List (List Char))
    (h : validateLines lines = Outcome.success) :
    lines.any (fun l => hasPre hdrTag l) = true := by
  by_contra hn
  have hanyf : lines.any (fun l => hasPre hdrTag l) = false := by
    cases hv : lines.any (fun l => hasPre hdrTag l) with
    | false => rfl
    | true => exact absurd hv hn
  have hall : lines.all (fun l => !hasPre hdrTag l) = true := by
    rw [List.all_eq_true]
    intro x hx
    rw [List.any_eq_false] at hanyf
    simpa using hanyf x hx
  exact validateFrom_ne_success_of_no_hdr lines 0 false hall h

/-- Claim C8, witness: scenario A is accepted and indeed contains a
header line. -/
theorem claimC8_witness :
    validateLines scenarioA = Outcome.success ∧
    scenarioA.any (fun l => hasPre hdrTag l) = true :=
  ⟨by decide, claimC8_theorem scenarioA (by decide)⟩

/-- Claim C9: when a line halts the run, the outcome is the failure of that line,
failure wholly independently of everything after it — lines past the
first failing line are never processed and exactly that one failure is
reported. -/
theorem claimC9_theorem (line : List Char) (rest rest2 : List (List Char)) (n : Nat)
    (ff hd : Bool) (e : VcfError)
    (h : processLine line (n + 1) ff hd = .halt e) :
    validateFrom (line :: rest) n ff hd = Outcome.failure e ∧
    validateFrom (line :: rest2) n ff hd = Outcome.failure e := by
  constructor <;> rw [validateFrom_cons, h]

/-- Claim C9, witness: the fail-fast example given in the spec — a bad
CHROM on line 3 with a bad ALT on line 5 reports only the line-3
defect, identically whether or not the later lines are present. -/
theorem claimC9_witness :
    validateFrom [badChromLine, dataLineA, badAltLine] 2 true true =
      Outcome.failure (.invalidChrom 3 badChromLine) ∧
    validateFrom [badChromLine] 2 true true =
      Outcome.failure (.invalidChrom 3 badChromLine) :=
  claimC9_theorem badChromLine [dataLineA, badAltLine] [] 2 true true
    (.invalidChrom 3 badChromLine) (by decide)

/-- Claim C10: an empty or all-whitespace line is classified as a data
record (it starts with neither `##` nor `#CHROM`), strips and splits to
the single empty field, and therefore fails with the column-count error
for its line number — blank lines are never silently skipped. -/
theorem claimC10_theorem (line : List Char) (rest : List (List Char)) (n : Nat)
    (ff hd : Bool) (h : line.all pyWs = true) :
    hasPre hashHash line = false ∧
    hasPre hdrTag line = false ∧
    splitOnChar '\t' (pyStrip line) = [[]] ∧
    validateFrom (line :: rest) n ff hd =
      Outcome.failure (.columnCount (n + 1) line) := by
  have h1 := not_hashHash_of_ws line h
  have h2 := not_hdr_of_ws line h
  have h3 : pyStrip line = [] := pyStrip_eq_nil_of_ws line h
  have h4 : splitOnChar '\t' (pyStrip line) = [[]] := by rw [h3]; rfl
  refine ⟨h1, h2, h4, ?_⟩
  have h5 : (splitOnChar '\t' (pyStrip line)).length < 9 := by rw [h4]; decide
  rw [validateFrom_cons, processLine_data_short line (n + 1) ff hd h1 h2 h5]

/-- Claim C10, witness: a trailing blank line (just a newline) on line 3
fails with the column-count error citing line 3. -/
theorem claimC10_witness :
    hasPre hashHash (['\n']) = false ∧
    hasPre hdrTag (['\n']) = false ∧
    splitOnChar '\t' (pyStrip (['\n'])) = [[]] ∧
    validateFrom [(['\n'])] 2 true true = Outcome.failure (.columnCount 3 (['\n'])) :=
  claimC10_theorem (['\n']) [] 2 true true (by decide)

end VcfVal
